import Mathlib

/-!
Shallow embedding of the request cache/executor hook implemented in
`src/hooks/useApi.js` (`useApi`, `usePost`, `usePut`, `useDelete`).

The hook is single-threaded cooperative JavaScript: each `execute`
invocation runs a synchronous prelude (abort the previous in-flight
request, create a fresh abort controller, cache lookup, optional state
writes), then suspends on the network, then runs a synchronous epilogue
(state writes, cache write, result). We embed it as two pure transition
functions on an explicit executor state:

* `executeStart` — everything up to and including the decision whether
  to issue a network request (lines 22–41 of the source);
* `completeFetch` — the resumption once the transport settles
  (lines 43–78), parameterised by the transport outcome.

Abort controllers are modelled by a generation counter: every `execute`
call allocates a fresh generation (`currentGen + 1`) and thereby aborts
the previous one; a pending request whose generation is no longer
current, or whose generation was aborted by teardown, resolves through
the `AbortError` branch of the source's `catch` (lines 70–73).

Network traffic is made observable by a `netCalls` counter that is
incremented exactly where the source calls `fetch`.
-/

namespace NotorixApi

/-- Model of JSON-representable JavaScript values (response payloads and
option-object property values). Numbers are modelled as integers. -/
inductive Json where
  | null : Json
  | bool : Bool → Json
  | num : Int → Json
  | str : String → Json
  | arr : List Json → Json
  | obj : List (String × Json) → Json

/-- A JavaScript value stored in a property of an options object:
either `undefined` or a JSON-representable value. `JSON.stringify`
omits properties whose value is `undefined`. -/
inductive JsVal where
  | undef : JsVal
  | val : Json → JsVal

/-- The options argument of `useApi` / `execute`: a JavaScript object,
i.e. an insertion-ordered list of string-keyed properties. -/
abbrev Options : Type := List (String × JsVal)

/-- Escape one character the way `JSON.stringify` does inside string
literals (quote, backslash and common control characters). -/
def escapeChar (c : Char) : String :=
  if c = '\\' then "\\\\"
  else if c = '"' then "\\\""
  else if c = '\n' then "\\n"
  else if c = '\t' then "\\t"
  else if c = '\r' then "\\r"
  else String.singleton c

/-- Escape a string the way `JSON.stringify` does. -/
def escapeString (s : String) : String :=
  String.join (s.toList.map escapeChar)

/-- Render a string as a JSON string literal. -/
def jquote (s : String) : String :=
  "\"" ++ escapeString s ++ "\""

mutual

/-- Model of `JSON.stringify` on JSON-representable values. -/
def stringify : Json → String
  | .null => "null"
  | .bool true => "true"
  | .bool false => "false"
  | .num n => toString n
  | .str s => jquote s
  | .arr xs => "[" ++ stringifyArr xs ++ "]"
  | .obj fs => "\x7b" ++ stringifyFields fs ++ "\x7d"

/-- Comma-separated serialization of array elements. -/
def stringifyArr : List Json → String
  | [] => ""
  | [x] => stringify x
  | x :: xs => stringify x ++ "," ++ stringifyArr xs

/-- Comma-separated serialization of object properties. -/
def stringifyFields : List (String × Json) → String
  | [] => ""
  | [(k, v)] => jquote k ++ ":" ++ stringify v
  | (k, v) :: fs => jquote k ++ ":" ++ stringify v ++ "," ++ stringifyFields fs

end

/-- Model of `JSON.stringify` applied to an options object: properties
whose value is `undefined` are dropped (JavaScript semantics), the
remaining ones are serialized in insertion order. -/
def stringifyOptions (opts : Options) : String :=
  stringify (.obj (opts.filterMap fun p =>
    match p.2 with
    | .undef => none
    | .val j => some (p.1, j)))

/-- The cache key of `execute` (source line 31):
`` `${customUrl}-${JSON.stringify(customOptions)}` ``. -/
def cacheKey (url : String) (opts : Options) : String :=
  url ++ "-" ++ stringifyOptions opts

/-- One cache entry as stored by the source (lines 59–62):
the parsed payload and the timestamp of the store. -/
structure CacheEntry where
  data : Json
  timestamp : Int

/-- Model of `Map.prototype.get` on the association-list model of the cache. -/
def cacheGet : List (String × CacheEntry) → String → Option CacheEntry
  | [], _ => none
  | (k', e) :: rest, k => if k' = k then some e else cacheGet rest k

/-- Model of `Map.prototype.set`: replace the value of an existing key in place,
otherwise append the binding. -/
def cacheSet : List (String × CacheEntry) → String → CacheEntry → List (String × CacheEntry)
  | [], k, e => [(k, e)]
  | (k', e') :: rest, k, e =>
    if k' = k then (k, e) :: rest else (k', e') :: cacheSet rest k e

/-- Model of `Map.prototype.delete`: remove the binding of the key. A JavaScript
`Map` never holds a key twice, so removing every occurrence coincides
with `Map.delete` on all states the hook can reach. -/
def cacheDelete (c : List (String × CacheEntry)) (k : String) : List (String × CacheEntry) :=
  c.filter fun p => p.1 != k

/-- The observable state of one executor instance: the React state
triple (`data`, `loading`, `error`), the cache ref, the abort-controller
ref modelled as a generation counter plus the set of generations aborted
by teardown, and an instrumentation counter of issued network calls. -/
structure ApiState where
  data : Option Json
  loading : Bool
  error : Option String
  cache : List (String × CacheEntry)
  currentGen : Nat
  abortedByTeardown : List Nat
  netCalls : Nat

/-- State of a freshly created executor: `useState(null)`,
`useState(false)`, `useState(null)`, empty cache, no request yet. -/
def initState : ApiState :=
  { data := none
    loading := false
    error := none
    cache := []
    currentGen := 0
    abortedByTeardown := []
    netCalls := 0 }

/-- What the synchronous prelude of `execute` decided to do. -/
inductive StartAction where
  | cachedHit : Json → StartAction
  | fetchStarted : Nat → String → StartAction

/-- The value an `execute` invocation resolves with:
`{ success: true, data }` or `{ success: false, error }`. -/
inductive ExecResult where
  | success : Json → ExecResult
  | failure : String → ExecResult

/-- How the transport settles for one issued request: a response with a
status code and a JSON-parsed body, or a rejection (network failure or
body-parse failure) carrying a message. Abort is not listed here — it is
determined by the executor state, not by the transport. -/
inductive Transport where
  | response : Nat → Json → Transport
  | netError : String → Transport

/-- Truth of `response.ok`: status in the inclusive range 200–299. -/
def respOk (status : Nat) : Bool :=
  200 ≤ status && status < 300

/-- The error message thrown on a non-success status (source line 54):
`` `HTTP error! status: ${response.status}` ``. -/
def httpErrorMsg (status : Nat) : String :=
  "HTTP error! status: " ++ toString status

/-- The message of the failure result returned when the request was
aborted (source line 72). -/
def cancelledMsg : String := "Request cancelled"

/-- Synchronous prelude of `execute(customUrl, customOptions)`
(source lines 22–41): abort the previous request and install a fresh
abort controller (modelled by bumping the generation), compute the cache
key, and either serve a fresh cache entry (set `data`, clear `error`,
return the cached payload — no network call) or set `loading`, clear
`error` and issue the fetch. -/
def executeStart (s : ApiState) (url : String) (opts : Options) (now : Int)
    (cacheTime : Int) : ApiState × StartAction :=
  let g := s.currentGen + 1
  let key := cacheKey url opts
  let s1 := { s with currentGen := g }
  match cacheGet s1.cache key with
  | some e =>
    if now - e.timestamp < cacheTime then
      ({ s1 with data := some e.data, error := none }, .cachedHit e.data)
    else
      ({ s1 with loading := true, error := none, netCalls := s1.netCalls + 1 },
        .fetchStarted g key)
  | none =>
      ({ s1 with loading := true, error := none, netCalls := s1.netCalls + 1 },
        .fetchStarted g key)

/-- Resumption of an `execute` invocation whose fetch (generation `g`,
cache key `key`) settled with transport outcome `t` at time `now`
(source lines 43–78). If the request's controller was aborted — because
a newer `execute` call superseded generation `g`, or teardown aborted it
— the `await` rejects with `AbortError` and the catch branch returns the
cancelled failure without touching state. Otherwise: on a success status
the body is cached under `key` with the current timestamp, `data` is
set and `loading` cleared; on a non-success status or transport failure
`error` is set and `loading` cleared. -/
def completeFetch (s : ApiState) (g : Nat) (key : String) (now : Int)
    (t : Transport) : ApiState × ExecResult :=
  if g != s.currentGen || s.abortedByTeardown.contains g then
    (s, .failure cancelledMsg)
  else
    match t with
    | .response status body =>
      if respOk status then
        ({ s with
            cache := cacheSet s.cache key { data := body, timestamp := now }
            data := some body
            loading := false },
          .success body)
      else
        ({ s with error := some (httpErrorMsg status), loading := false },
          .failure (httpErrorMsg status))
    | .netError msg =>
        ({ s with error := some msg, loading := false }, .failure msg)

/-- One whole `execute` invocation, from call to settled result: run the
prelude; if it issued a fetch, resume it with the transport outcome `t`
at time `tEnd`. On a cache hit the transport is never consulted. -/
def executeRun (s : ApiState) (url : String) (opts : Options) (tStart : Int)
    (cacheTime : Int) (t : Transport) (tEnd : Int) : ApiState × ExecResult :=
  match executeStart s url opts tStart cacheTime with
  | (s1, .cachedHit d) => (s1, .success d)
  | (s1, .fetchStarted g key) => completeFetch s1 g key tEnd t

/-- The `useEffect` cleanup (source lines 95–99): abort the current
controller. Recorded as aborting the current generation. -/
def teardown (s : ApiState) : ApiState :=
  { s with abortedByTeardown := s.currentGen :: s.abortedByTeardown }

/-- The arguments one `useApi`-family call binds: default URL and
options, the immediate-execution flag and the cache time-to-live. -/
structure HookConfig where
  url : String
  options : Options
  immediate : Bool
  cacheTime : Int

/-- Default `cacheTime` of `useApi`: five minutes in milliseconds. -/
def defaultCacheTime : Int := 5 * 60 * 1000

/-- Constructor `useApi(url, options, immediate, cacheTime)`: records its arguments
as the executor's configuration. -/
def useApi (url : String) (options : Options) (immediate : Bool)
    (cacheTime : Int) : HookConfig :=
  { url := url, options := options, immediate := immediate, cacheTime := cacheTime }

/-- The mount-time `useEffect` body (source lines 89–93): if the
configuration asks for immediate execution, run `execute()` with the
default URL and options on the fresh state; otherwise do nothing. -/
def mount (cfg : HookConfig) (now : Int) : ApiState × Option StartAction :=
  if cfg.immediate then
    let r := executeStart initState cfg.url cfg.options now cfg.cacheTime
    (r.1, some r.2)
  else
    (initState, none)

/-- Model of `refetch()` (source lines 82–86): delete the cache entry for the
default `(url, options)` pair, then `execute()` with those defaults. -/
def refetch (cfg : HookConfig) (s : ApiState) (now : Int) : ApiState × StartAction :=
  executeStart { s with cache := cacheDelete s.cache (cacheKey cfg.url cfg.options) }
    cfg.url cfg.options now cfg.cacheTime

/-- The spread `{ ...options, method }` used by the derived hooks: if
the key is already present its value is replaced in place (JavaScript
keeps the original property position), otherwise the property is
appended. -/
def setProp : Options → String → JsVal → Options
  | [], k, v => [(k, v)]
  | (k', v') :: rest, k, v =>
    if k' = k then (k, v) :: rest else (k', v') :: setProp rest k v

/-- Property lookup on an options object. -/
def getProp : Options → String → Option JsVal
  | [], _ => none
  | (k', v) :: rest, k => if k' = k then some v else getProp rest k

/-- Model of `usePost(url, options)` (source lines 117–119):
`useApi(url, { ...options, method: 'POST' }, false)`. -/
def usePost (url : String) (options : Options) : HookConfig :=
  useApi url (setProp options "method" (.val (.str "POST"))) false defaultCacheTime

/-- Model of `usePut(url, options)` (source lines 127–129). -/
def usePut (url : String) (options : Options) : HookConfig :=
  useApi url (setProp options "method" (.val (.str "PUT"))) false defaultCacheTime

/-- Model of `useDelete(url, options)` (source lines 137–139). -/
def useDelete (url : String) (options : Options) : HookConfig :=
  useApi url (setProp options "method" (.val (.str "DELETE"))) false defaultCacheTime

/-! ### Basic lemmas about the cache map and option objects -/

theorem cacheGet_cacheSet_self (c : List (String × CacheEntry)) (k : String)
    (e : CacheEntry) : cacheGet (cacheSet c k e) k = some e := by
  induction c with
  | nil => simp [cacheSet, cacheGet]
  | cons p rest ih =>
    by_cases h : p.1 = k
    · simp [cacheSet, cacheGet, h]
    · simp [cacheSet, cacheGet, h, ih]

theorem cacheGet_cacheDelete_self (c : List (String × CacheEntry)) (k : String) :
    cacheGet (cacheDelete c k) k = none := by
  induction c with
  | nil => simp [cacheDelete, cacheGet]
  | cons p rest ih =>
    by_cases h : p.1 = k
    · simpa [cacheDelete, cacheGet, h] using ih
    · simp [cacheDelete, cacheGet, h] at ih ⊢
      exact ih

theorem getProp_setProp (opts : Options) (k : String) (v : JsVal) :
    getProp (setProp opts k v) k = some v := by
  induction opts with
  | nil => simp [setProp, getProp]
  | cons p rest ih =>
    by_cases h : p.1 = k
    · simp [setProp, getProp, h]
    · simp [setProp, getProp, h, ih]

/-! ### Characterization lemmas for the prelude of `execute` -/

theorem executeStart_miss (s : ApiState) (url : String) (opts : Options)
    (now cacheTime : Int)
    (h : cacheGet s.cache (cacheKey url opts) = none) :
    executeStart s url opts now cacheTime =
      ({ s with
          currentGen := s.currentGen + 1
          loading := true
          error := none
          netCalls := s.netCalls + 1 },
        .fetchStarted (s.currentGen + 1) (cacheKey url opts)) := by
  simp [executeStart, h]

theorem executeStart_hit (s : ApiState) (url : String) (opts : Options)
    (now cacheTime : Int) (e : CacheEntry)
    (h : cacheGet s.cache (cacheKey url opts) = some e)
    (hfresh : now - e.timestamp < cacheTime) :
    executeStart s url opts now cacheTime =
      ({ s with
          currentGen := s.currentGen + 1
          data := some e.data
          error := none },
        .cachedHit e.data) := by
  simp [executeStart, h, hfresh]

theorem executeStart_stale (s : ApiState) (url : String) (opts : Options)
    (now cacheTime : Int) (e : CacheEntry)
    (h : cacheGet s.cache (cacheKey url opts) = some e)
    (hstale : ¬ now - e.timestamp < cacheTime) :
    executeStart s url opts now cacheTime =
      ({ s with
          currentGen := s.currentGen + 1
          loading := true
          error := none
          netCalls := s.netCalls + 1 },
        .fetchStarted (s.currentGen + 1) (cacheKey url opts)) := by
  simp [executeStart, h, hstale]

/-! ### Characterization lemmas for the resumption of `execute` -/

theorem completeFetch_superseded (s : ApiState) (g : Nat) (key : String)
    (now : Int) (t : Transport) (hg : g ≠ s.currentGen) :
    completeFetch s g key now t = (s, .failure cancelledMsg) := by
  simp [completeFetch, hg]

theorem completeFetch_torn (s : ApiState) (g : Nat) (key : String)
    (now : Int) (t : Transport) (ht : s.abortedByTeardown.contains g = true) :
    completeFetch s g key now t = (s, .failure cancelledMsg) := by
  have hm : g ∈ s.abortedByTeardown := by simpa using ht
  simp [completeFetch, hm]

theorem completeFetch_ok (s : ApiState) (g : Nat) (key : String) (now : Int)
    (status : Nat) (body : Json) (hg : g = s.currentGen)
    (ht : s.abortedByTeardown.contains g = false)
    (hok : respOk status = true) :
    completeFetch s g key now (.response status body) =
      ({ s with
          cache := cacheSet s.cache key { data := body, timestamp := now }
          data := some body
          loading := false },
        .success body) := by
  subst hg
  have hm : s.currentGen ∉ s.abortedByTeardown := by simpa using ht
  simp [completeFetch, hm, hok]

theorem completeFetch_httpError (s : ApiState) (g : Nat) (key : String)
    (now : Int) (status : Nat) (body : Json) (hg : g = s.currentGen)
    (ht : s.abortedByTeardown.contains g = false)
    (hbad : respOk status = false) :
    completeFetch s g key now (.response status body) =
      ({ s with
          error := some (httpErrorMsg status)
          loading := false },
        .failure (httpErrorMsg status)) := by
  subst hg
  have hm : s.currentGen ∉ s.abortedByTeardown := by simpa using ht
  simp [completeFetch, hm, hbad]

theorem completeFetch_netError (s : ApiState) (g : Nat) (key : String)
    (now : Int) (msg : String) (hg : g = s.currentGen)
    (ht : s.abortedByTeardown.contains g = false) :
    completeFetch s g key now (.netError msg) =
      ({ s with error := some msg, loading := false }, .failure msg) := by
  subst hg
  have hm : s.currentGen ∉ s.abortedByTeardown := by simpa using ht
  simp [completeFetch, hm]

/-! ### Decomposition of a whole invocation -/

theorem executeRun_hit (s s1 : ApiState) (url : String) (opts : Options)
    (tStart ct : Int) (d : Json) (t : Transport) (tEnd : Int)
    (h : executeStart s url opts tStart ct = (s1, .cachedHit d)) :
    executeRun s url opts tStart ct t tEnd = (s1, .success d) := by
  unfold executeRun
  rw [h]

theorem executeRun_fetch (s s1 : ApiState) (url : String) (opts : Options)
    (tStart ct : Int) (g : Nat) (k : String) (t : Transport) (tEnd : Int)
    (h : executeStart s url opts tStart ct = (s1, .fetchStarted g k)) :
    executeRun s url opts tStart ct t tEnd = completeFetch s1 g k tEnd t := by
  unfold executeRun
  rw [h]

/-! ### Structural facts about generations -/

theorem executeStart_currentGen (s : ApiState) (url : String) (opts : Options)
    (now ct : Int) :
    (executeStart s url opts now ct).1.currentGen = s.currentGen + 1 := by
  rcases hcg : cacheGet s.cache (cacheKey url opts) with _ | e
  · simp [executeStart, hcg]
  · by_cases hf : now - e.timestamp < ct
    · simp [executeStart, hcg, hf]
    · simp [executeStart, hcg, hf]

theorem executeStart_abortedByTeardown (s : ApiState) (url : String)
    (opts : Options) (now ct : Int) :
    (executeStart s url opts now ct).1.abortedByTeardown = s.abortedByTeardown := by
  rcases hcg : cacheGet s.cache (cacheKey url opts) with _ | e
  · simp [executeStart, hcg]
  · by_cases hf : now - e.timestamp < ct
    · simp [executeStart, hcg, hf]
    · simp [executeStart, hcg, hf]

theorem executeStart_fetchStarted_gen (s s1 : ApiState) (url : String)
    (opts : Options) (now ct : Int) (g : Nat) (k : String)
    (h : executeStart s url opts now ct = (s1, .fetchStarted g k)) :
    g = s.currentGen + 1 := by
  rcases hcg : cacheGet s.cache (cacheKey url opts) with _ | e
  · rw [executeStart_miss s url opts now ct hcg] at h
    injection h with h1 h2
    injection h2 with h3 h4
    exact h3.symm
  · by_cases hf : now - e.timestamp < ct
    · rw [executeStart_hit s url opts now ct e hcg hf] at h
      injection h with h1 h2
      cases h2
    · rw [executeStart_stale s url opts now ct e hcg hf] at h
      injection h with h1 h2
      injection h2 with h3 h4
      exact h3.symm

theorem completeFetch_currentGen (s : ApiState) (g : Nat) (key : String)
    (now : Int) (t : Transport) :
    (completeFetch s g key now t).1.currentGen = s.currentGen := by
  unfold completeFetch
  split
  · rfl
  · cases t
    · dsimp only
      split
      · rfl
      · rfl
    · rfl

/-! ### Claim theorems -/

/-- Claim C3: for every executor configuration and every cache state —
including a fresh, unexpired entry for the default key — `refetch()`
first evicts the cache entry for the default `(endpoint, options)` pair
and then calls `execute` with those defaults, so it always performs a
network call: the prelude issues a fetch for the default cache key (one
more network call is recorded) and never serves from the cache. -/
theorem claim_C3_refetch_always_fetches (cfg : HookConfig) (s : ApiState)
    (now : Int) :
    (refetch cfg s now).2 =
      .fetchStarted (s.currentGen + 1) (cacheKey cfg.url cfg.options) ∧
    (refetch cfg s now).1.netCalls = s.netCalls + 1 ∧
    (refetch cfg s now).1.loading = true := by
  unfold refetch
  rw [executeStart_miss _ cfg.url cfg.options now cfg.cacheTime
    (cacheGet_cacheDelete_self s.cache (cacheKey cfg.url cfg.options))]
  exact ⟨rfl, rfl, rfl⟩

/-- Claim C5: a pending `execute` whose generation was superseded by a
newer `execute` call on the same instance resolves through the
`AbortError` branch: the state is returned unchanged — neither a success
nor an error is recorded from the point of cancellation onward — and the
invocation resolves with the failure result `"Request cancelled"`. -/
theorem claim_C5_cancelled_call_is_silent (s : ApiState) (g : Nat)
    (key : String) (now : Int) (t : Transport) (hsup : g ≠ s.currentGen) :
    (completeFetch s g key now t).1 = s ∧
    (completeFetch s g key now t).2 = .failure cancelledMsg := by
  rw [completeFetch_superseded s g key now t hsup]
  exact ⟨rfl, rfl⟩

/-- Witness for claim C5: a request of generation 1 resolving while
generation 2 is current leaves the state untouched and returns the
cancelled failure, even though its response was a success. -/
theorem claim_C5_witness :
    (completeFetch { initState with currentGen := 2 } 1 "k" 5
        (.response 200 (.str "late"))).1 = { initState with currentGen := 2 } ∧
    (completeFetch { initState with currentGen := 2 } 1 "k" 5
        (.response 200 (.str "late"))).2 = .failure cancelledMsg :=
  claim_C5_cancelled_call_is_silent { initState with currentGen := 2 } 1 "k" 5
    (.response 200 (.str "late")) (by decide)

/-- Claim C6: when the transport answers with a non-success status, the
invocation sets `error` to the message carrying that status
(`"HTTP error! status: ..."`), sets `loading` to false, leaves `data` at
its prior value, and resolves with a failure result carrying the same
message. -/
theorem claim_C6_http_error_state (s : ApiState) (g : Nat) (key : String)
    (now : Int) (status : Nat) (body : Json) (hg : g = s.currentGen)
    (ht : s.abortedByTeardown.contains g = false)
    (hbad : respOk status = false) :
    (completeFetch s g key now (.response status body)).1.error =
      some (httpErrorMsg status) ∧
    (completeFetch s g key now (.response status body)).1.loading = false ∧
    (completeFetch s g key now (.response status body)).1.data = s.data ∧
    (completeFetch s g key now (.response status body)).2 =
      .failure (httpErrorMsg status) := by
  rw [completeFetch_httpError s g key now status body hg ht hbad]
  exact ⟨rfl, rfl, rfl, rfl⟩

/-- Witness for claim C6: a 404 response records the error message
`"HTTP error! status: 404"`, clears `loading`, keeps `data` at its
prior value (null here, since none was ever set) and fails. -/
theorem claim_C6_witness :
    (completeFetch { initState with currentGen := 1, loading := true } 1 "k" 5
        (.response 404 .null)).1.error = some (httpErrorMsg 404) ∧
    (completeFetch { initState with currentGen := 1, loading := true } 1 "k" 5
        (.response 404 .null)).1.loading = false ∧
    (completeFetch { initState with currentGen := 1, loading := true } 1 "k" 5
        (.response 404 .null)).1.data =
      ({ initState with currentGen := 1, loading := true } : ApiState).data ∧
    (completeFetch { initState with currentGen := 1, loading := true } 1 "k" 5
        (.response 404 .null)).2 = .failure (httpErrorMsg 404) :=
  claim_C6_http_error_state { initState with currentGen := 1, loading := true }
    1 "k" 5 404 .null rfl rfl rfl

/-- Claim C8: teardown aborts the in-flight request: a fetch of any
generation that settles after the `useEffect` cleanup ran resolves
through the handled `AbortError` branch, so no update of
`(data, loading, error)` — indeed no state change at all — happens after
teardown, and the invocation still resolves with an ordinary failure
result rather than an unhandled rejection. -/
theorem claim_C8_no_update_after_teardown (s : ApiState) (g : Nat)
    (key : String) (now : Int) (t : Transport) :
    completeFetch (teardown s) g key now t = (teardown s, .failure cancelledMsg) := by
  by_cases hg : g = (teardown s).currentGen
  · refine completeFetch_torn (teardown s) g key now t ?_
    have : (teardown s).currentGen = s.currentGen := rfl
    simp [teardown, hg, this]
  · exact completeFetch_superseded (teardown s) g key now t hg

/-- Claim C1: if a first `execute` call with `(url, opts)` misses the
cache, fetches and succeeds at time `t1`, then a second `execute` call
with the identical `(url, opts)` at a time `t2` within the time-to-live
performs zero network calls (`netCalls` unchanged, transport never
consulted), resolves with a success result carrying the cached payload,
sets `data` to that payload, clears `error`, and leaves the state
non-loading. -/
theorem claim_C1_cache_hit_within_ttl
    (s0 s2 s3 : ApiState) (r1 r2 : ExecResult) (url : String) (opts : Options)
    (t0 t1 t2 t3 ct : Int) (status : Nat) (payload : Json) (tr : Transport)
    (hteardown : s0.abortedByTeardown = [])
    (hmiss : cacheGet s0.cache (cacheKey url opts) = none)
    (hok : respOk status = true)
    (h1 : executeRun s0 url opts t0 ct (.response status payload) t1 = (s2, r1))
    (hfresh : t2 - t1 < ct)
    (h2 : executeRun s2 url opts t2 ct tr t3 = (s3, r2)) :
    r2 = .success payload ∧ s3.data = some payload ∧ s3.error = none ∧
    s3.loading = false ∧ s3.netCalls = s2.netCalls := by
  have hcont : s0.abortedByTeardown.contains (s0.currentGen + 1) = false := by
    rw [hteardown]
    rfl
  rw [executeRun_fetch _ _ _ _ _ _ _ _ _ _
    (executeStart_miss s0 url opts t0 ct hmiss)] at h1
  rw [completeFetch_ok _ _ _ _ _ _ rfl hcont hok] at h1
  injection h1 with hs2 hr1
  have hgc : cacheGet s2.cache (cacheKey url opts) =
      some { data := payload, timestamp := t1 } := by
    rw [← hs2]
    exact cacheGet_cacheSet_self _ _ _
  have hload : s2.loading = false := by
    rw [← hs2]
  rw [executeRun_hit _ _ _ _ _ _ _ _ _
    (executeStart_hit s2 url opts t2 ct { data := payload, timestamp := t1 }
      hgc hfresh)] at h2
  injection h2 with hs3 hr2
  subst hs3
  subst hr2
  exact ⟨rfl, rfl, rfl, hload, rfl⟩

/-- Witness for claim C1: after a successful fetch of `"ok"` at time 1,
a second identical call at time 2 (within the default five-minute
time-to-live) succeeds with the cached `"ok"` even though the transport
would now fail, and issues no further network call. -/
theorem claim_C1_witness :
    (executeRun
        (executeRun initState "u" [] 0 defaultCacheTime
          (.response 200 (.str "ok")) 1).1
        "u" [] 2 defaultCacheTime (.netError "down") 3).2 = .success (.str "ok") ∧
    (executeRun
        (executeRun initState "u" [] 0 defaultCacheTime
          (.response 200 (.str "ok")) 1).1
        "u" [] 2 defaultCacheTime (.netError "down") 3).1.data =
      some (.str "ok") ∧
    (executeRun
        (executeRun initState "u" [] 0 defaultCacheTime
          (.response 200 (.str "ok")) 1).1
        "u" [] 2 defaultCacheTime (.netError "down") 3).1.error = none ∧
    (executeRun
        (executeRun initState "u" [] 0 defaultCacheTime
          (.response 200 (.str "ok")) 1).1
        "u" [] 2 defaultCacheTime (.netError "down") 3).1.loading = false ∧
    (executeRun
        (executeRun initState "u" [] 0 defaultCacheTime
          (.response 200 (.str "ok")) 1).1
        "u" [] 2 defaultCacheTime (.netError "down") 3).1.netCalls =
      (executeRun initState "u" [] 0 defaultCacheTime
        (.response 200 (.str "ok")) 1).1.netCalls :=
  claim_C1_cache_hit_within_ttl initState
    (executeRun initState "u" [] 0 defaultCacheTime (.response 200 (.str "ok")) 1).1
    (executeRun
      (executeRun initState "u" [] 0 defaultCacheTime (.response 200 (.str "ok")) 1).1
      "u" [] 2 defaultCacheTime (.netError "down") 3).1
    (executeRun initState "u" [] 0 defaultCacheTime (.response 200 (.str "ok")) 1).2
    (executeRun
      (executeRun initState "u" [] 0 defaultCacheTime (.response 200 (.str "ok")) 1).1
      "u" [] 2 defaultCacheTime (.netError "down") 3).2
    "u" [] 0 1 2 3 defaultCacheTime 200 (.str "ok") (.netError "down")
    rfl rfl rfl rfl (by decide) rfl

/-- Claim C4: when the time-to-live of the entry stored by a first
successful call has elapsed, a second identical `execute` call issues a
fresh network call (`netCalls` grows by one) and, on success, the cache
entry under that key is replaced — not merged — with the new payload and
the new timestamp. -/
theorem claim_C4_expired_entry_replaced
    (s0 s2 s4 : ApiState) (r1 r2 : ExecResult) (url : String) (opts : Options)
    (t0 t1 t2 t3 ct : Int) (st1 st2 : Nat) (p1 p2 : Json)
    (hteardown : s0.abortedByTeardown = [])
    (hmiss : cacheGet s0.cache (cacheKey url opts) = none)
    (hok1 : respOk st1 = true)
    (hok2 : respOk st2 = true)
    (h1 : executeRun s0 url opts t0 ct (.response st1 p1) t1 = (s2, r1))
    (hstale : ¬ t2 - t1 < ct)
    (h2 : executeRun s2 url opts t2 ct (.response st2 p2) t3 = (s4, r2)) :
    s4.netCalls = s2.netCalls + 1 ∧ r2 = .success p2 ∧
    cacheGet s4.cache (cacheKey url opts) =
      some { data := p2, timestamp := t3 } := by
  have hcont : s0.abortedByTeardown.contains (s0.currentGen + 1) = false := by
    rw [hteardown]
    rfl
  rw [executeRun_fetch _ _ _ _ _ _ _ _ _ _
    (executeStart_miss s0 url opts t0 ct hmiss)] at h1
  rw [completeFetch_ok _ _ _ _ _ _ rfl hcont hok1] at h1
  injection h1 with hs2 hr1
  have hgc : cacheGet s2.cache (cacheKey url opts) =
      some { data := p1, timestamp := t1 } := by
    rw [← hs2]
    exact cacheGet_cacheSet_self _ _ _
  have habt : s2.abortedByTeardown = [] := by
    rw [← hs2]
    exact hteardown
  have hcont2 : s2.abortedByTeardown.contains (s2.currentGen + 1) = false := by
    rw [habt]
    rfl
  rw [executeRun_fetch _ _ _ _ _ _ _ _ _ _
    (executeStart_stale s2 url opts t2 ct { data := p1, timestamp := t1 }
      hgc hstale)] at h2
  rw [completeFetch_ok _ _ _ _ _ _ rfl hcont2 hok2] at h2
  injection h2 with hs4 hr2
  subst hs4
  subst hr2
  exact ⟨rfl, rfl, cacheGet_cacheSet_self _ _ _⟩

/-- Witness for claim C4: with a time-to-live of 1 millisecond, a first
call caches `"a"` at time 1; a second identical call at time 5 finds the
entry expired, issues one more network call, succeeds with the fresh
`"b"` and overwrites the entry with `"b"` at timestamp 6. -/
theorem claim_C4_witness :
    (executeRun (executeRun initState "u" [] 0 1 (.response 200 (.str "a")) 1).1
        "u" [] 5 1 (.response 201 (.str "b")) 6).1.netCalls =
      (executeRun initState "u" [] 0 1 (.response 200 (.str "a")) 1).1.netCalls + 1 ∧
    (executeRun (executeRun initState "u" [] 0 1 (.response 200 (.str "a")) 1).1
        "u" [] 5 1 (.response 201 (.str "b")) 6).2 = .success (.str "b") ∧
    cacheGet
      (executeRun (executeRun initState "u" [] 0 1 (.response 200 (.str "a")) 1).1
        "u" [] 5 1 (.response 201 (.str "b")) 6).1.cache
      (cacheKey "u" []) = some { data := .str "b", timestamp := 6 } :=
  claim_C4_expired_entry_replaced initState
    (executeRun initState "u" [] 0 1 (.response 200 (.str "a")) 1).1
    (executeRun (executeRun initState "u" [] 0 1 (.response 200 (.str "a")) 1).1
      "u" [] 5 1 (.response 201 (.str "b")) 6).1
    (executeRun initState "u" [] 0 1 (.response 200 (.str "a")) 1).2
    (executeRun (executeRun initState "u" [] 0 1 (.response 200 (.str "a")) 1).1
      "u" [] 5 1 (.response 201 (.str "b")) 6).2
    "u" [] 0 1 5 6 1 200 201 (.str "a") (.str "b")
    rfl rfl rfl rfl rfl (by decide) rfl

/-! ### Further supporting lemmas (net-call accounting, failure surfacing) -/

theorem completeFetch_netCalls (s : ApiState) (g : Nat) (key : String)
    (now : Int) (t : Transport) :
    (completeFetch s g key now t).1.netCalls = s.netCalls := by
  unfold completeFetch
  split
  · rfl
  · cases t
    · dsimp only
      split
      · rfl
      · rfl
    · rfl

theorem executeStart_netCalls (s : ApiState) (url : String) (opts : Options)
    (now ct : Int) :
    (executeStart s url opts now ct).1.netCalls ≤ s.netCalls + 1 := by
  rcases hcg : cacheGet s.cache (cacheKey url opts) with _ | e
  · simp [executeStart, hcg]
  · by_cases hf : now - e.timestamp < ct
    · simp [executeStart, hcg, hf]
    · simp [executeStart, hcg, hf]

theorem completeFetch_failure_error (s : ApiState) (g : Nat) (key : String)
    (now : Int) (t : Transport) (m : String)
    (h : (completeFetch s g key now t).2 = .failure m) :
    (completeFetch s g key now t).1.error = some m ∨ m = cancelledMsg := by
  by_cases hg : g = s.currentGen
  · by_cases hct : s.abortedByTeardown.contains g = true
    · rw [completeFetch_torn s g key now t hct] at h ⊢
      right
      injection h with h'
      exact h'.symm
    · have hctf : s.abortedByTeardown.contains g = false := by
        simpa using hct
      cases t with
      | response status body =>
        by_cases hok : respOk status = true
        · rw [completeFetch_ok s g key now status body hg hctf hok] at h
          cases h
        · have hbad : respOk status = false := by
            simpa using hok
          rw [completeFetch_httpError s g key now status body hg hctf hbad] at h ⊢
          left
          injection h with h'
          rw [h']
      | netError msg =>
        rw [completeFetch_netError s g key now msg hg hctf] at h ⊢
        left
        injection h with h'
        rw [h']
  · rw [completeFetch_superseded s g key now t hg] at h ⊢
    right
    injection h with h'
    exact h'.symm

/-- Claim C2: with two overlapping `execute` calls on the same instance,
the later call to start wins. Starting the second call aborts the
first's in-flight request, so whenever the first call's fetch
(generation `g1`) eventually settles — whether before or after the
second call's own fetch settles — it changes no state and resolves as
cancelled; only the second call's result is ever reflected in state. -/
theorem claim_C2_last_call_wins
    (s0 s1 s2 : ApiState) (u1 u2 : String) (o1 o2 : Options) (t1 t2 ct : Int)
    (g1 : Nat) (k1 : String) (a2 : StartAction)
    (h1 : executeStart s0 u1 o1 t1 ct = (s1, .fetchStarted g1 k1))
    (h2 : executeStart s1 u2 o2 t2 ct = (s2, a2))
    (g2 : Nat) (k2 : String) (now now2 : Int) (tr tr2 : Transport) :
    completeFetch s2 g1 k1 now tr = (s2, .failure cancelledMsg) ∧
    (a2 = .fetchStarted g2 k2 →
      completeFetch (completeFetch s2 g2 k2 now2 tr2).1 g1 k1 now tr =
        ((completeFetch s2 g2 k2 now2 tr2).1, .failure cancelledMsg)) := by
  have hg1 : g1 = s0.currentGen + 1 :=
    executeStart_fetchStarted_gen s0 s1 u1 o1 t1 ct g1 k1 h1
  have hcg1 : s1.currentGen = s0.currentGen + 1 := by
    have h := executeStart_currentGen s0 u1 o1 t1 ct
    rw [h1] at h
    exact h
  have hcg2 : s2.currentGen = s1.currentGen + 1 := by
    have h := executeStart_currentGen s1 u2 o2 t2 ct
    rw [h2] at h
    exact h
  have hne : g1 ≠ s2.currentGen := by omega
  refine ⟨completeFetch_superseded s2 g1 k1 now tr hne, fun _ => ?_⟩
  refine completeFetch_superseded _ g1 k1 now tr ?_
  rw [completeFetch_currentGen s2 g2 k2 now2 tr2]
  exact hne

/-- Witness for claim C2: a call on `"a"` is superseded by a call on
`"b"`; the first call's fetch resolving later (even with a success
response) is a no-op on state and reports cancellation, both before and
after the second call's own fetch has settled. -/
theorem claim_C2_witness :
    completeFetch
        (executeStart (executeStart initState "a" [] 0 defaultCacheTime).1
          "b" [] 1 defaultCacheTime).1
        1 "a-\x7b\x7d" 5 (.response 200 (.str "late")) =
      ((executeStart (executeStart initState "a" [] 0 defaultCacheTime).1
          "b" [] 1 defaultCacheTime).1,
        .failure cancelledMsg) ∧
    ((executeStart (executeStart initState "a" [] 0 defaultCacheTime).1
        "b" [] 1 defaultCacheTime).2 = .fetchStarted 2 "b-\x7b\x7d" →
      completeFetch
          (completeFetch
            (executeStart (executeStart initState "a" [] 0 defaultCacheTime).1
              "b" [] 1 defaultCacheTime).1
            2 "b-\x7b\x7d" 6 (.response 200 (.str "second"))).1
          1 "a-\x7b\x7d" 5 (.response 200 (.str "late")) =
        ((completeFetch
            (executeStart (executeStart initState "a" [] 0 defaultCacheTime).1
              "b" [] 1 defaultCacheTime).1
            2 "b-\x7b\x7d" 6 (.response 200 (.str "second"))).1,
          .failure cancelledMsg)) :=
  claim_C2_last_call_wins initState
    (executeStart initState "a" [] 0 defaultCacheTime).1
    (executeStart (executeStart initState "a" [] 0 defaultCacheTime).1
      "b" [] 1 defaultCacheTime).1
    "a" "b" [] [] 0 1 defaultCacheTime 1 "a-\x7b\x7d"
    (executeStart (executeStart initState "a" [] 0 defaultCacheTime).1
      "b" [] 1 defaultCacheTime).2
    rfl rfl 2 "b-\x7b\x7d" 5 6
    (.response 200 (.str "late")) (.response 200 (.str "second"))

/-- Claim C7: an `execute` invocation is total over every transport
outcome — it always resolves with an `ExecResult` rather than throwing —
at most one network call is issued (no internal retry), and every
failure is surfaced: a failure result's message is either recorded in
the executor's `error` state or is the internal cancellation marker. -/
theorem claim_C7_failures_surfaced_no_retry (s : ApiState) (url : String)
    (opts : Options) (tStart ct : Int) (t : Transport) (tEnd : Int) :
    (executeRun s url opts tStart ct t tEnd).1.netCalls ≤ s.netCalls + 1 ∧
    (∀ m, (executeRun s url opts tStart ct t tEnd).2 = .failure m →
      (executeRun s url opts tStart ct t tEnd).1.error = some m ∨
        m = cancelledMsg) := by
  have hnet := executeStart_netCalls s url opts tStart ct
  unfold executeRun
  cases hstart : executeStart s url opts tStart ct with
  | mk s1 a =>
    rw [hstart] at hnet
    cases a with
    | cachedHit d =>
      refine ⟨hnet, fun m hm => ?_⟩
      cases hm
    | fetchStarted g k =>
      refine ⟨?_, fun m hm => completeFetch_failure_error s1 g k tEnd t m hm⟩
      rw [completeFetch_netCalls]
      exact hnet

/-- Witness for claim C7: a network failure on a cold cache issues one
network call and surfaces its message in the `error` state. -/
theorem claim_C7_witness :
    (executeRun initState "u" [] 0 defaultCacheTime (.netError "down") 1).1.netCalls ≤
      initState.netCalls + 1 ∧
    ((executeRun initState "u" [] 0 defaultCacheTime (.netError "down") 1).2 =
        .failure "down" →
      (executeRun initState "u" [] 0 defaultCacheTime (.netError "down") 1).1.error =
          some "down" ∨ "down" = cancelledMsg) :=
  ⟨(claim_C7_failures_surfaced_no_retry initState "u" [] 0 defaultCacheTime
      (.netError "down") 1).1,
    (claim_C7_failures_surfaced_no_retry initState "u" [] 0 defaultCacheTime
      (.netError "down") 1).2 "down"⟩

/-- Claim C9: the cache key is the plain concatenation of the endpoint,
a hyphen and `JSON.stringify(options)`, which is not injective on
`(endpoint, options)` pairs: the two distinct options objects
`\x7b cache: undefined \x7d` and `\x7b\x7d` serialize identically, so the
keys collide, and an `execute` call with the second pair is served the
payload cached by the first pair without any network call (its own
transport would have failed, and `netCalls` stays at 1). -/
theorem claim_C9_cache_key_collision :
    ([("cache", JsVal.undef)] : Options) ≠ ([] : Options) ∧
    cacheKey "api/posts" [("cache", JsVal.undef)] = cacheKey "api/posts" [] ∧
    (executeRun
        (executeRun initState "api/posts" [("cache", JsVal.undef)] 0
          defaultCacheTime (.response 200 (.str "payload")) 1).1
        "api/posts" [] 2 defaultCacheTime (.netError "unreachable") 3).2 =
      .success (.str "payload") ∧
    (executeRun
        (executeRun initState "api/posts" [("cache", JsVal.undef)] 0
          defaultCacheTime (.response 200 (.str "payload")) 1).1
        "api/posts" [] 2 defaultCacheTime (.netError "unreachable") 3).1.netCalls = 1 := by
  refine ⟨?_, rfl, rfl, rfl⟩
  simp

/-- Claim C10: `usePost`, `usePut` and `useDelete` construct the
executor with `immediate = false` and the corresponding HTTP method
forced into the options, so mounting performs no network request and no
start action — the initial state is untouched (`netCalls` stays 0); a
request can only come from an explicit `execute` call. -/
theorem claim_C10_derived_hooks_not_immediate (url : String) (opts : Options)
    (now : Int) :
    (usePost url opts).immediate = false ∧
    getProp (usePost url opts).options "method" = some (.val (.str "POST")) ∧
    mount (usePost url opts) now = (initState, none) ∧
    (usePut url opts).immediate = false ∧
    getProp (usePut url opts).options "method" = some (.val (.str "PUT")) ∧
    mount (usePut url opts) now = (initState, none) ∧
    (useDelete url opts).immediate = false ∧
    getProp (useDelete url opts).options "method" = some (.val (.str "DELETE")) ∧
    mount (useDelete url opts) now = (initState, none) :=
  ⟨rfl, getProp_setProp opts "method" (.val (.str "POST")), rfl,
    rfl, getProp_setProp opts "method" (.val (.str "PUT")), rfl,
    rfl, getProp_setProp opts "method" (.val (.str "DELETE")), rfl⟩

end NotorixApi
